import Mathlib

/-!
# CryThreadUtil (Win32): thread utilities and floating point exception control

A shallow embedding of `Code/CryEngine/CrySystem/CryThreadUtil_win32.h`.

* Machine integers are natural numbers; a store into a `WORD` or `DWORD`
  lvalue reduces modulo `2 ^ 16` or `2 ^ 32`, and `~x` is the 32-bit complement.
* Operating system calls are recorded in a trace (a list of calls in the order
  in which they are issued); the result of each call that can fail is an input
  of the embedded function.
* The CRT control word behind `_controlfp` is an abstract 32-bit word, kept
  apart from the MXCSR register read and written by `_mm_getcsr`/`_mm_setcsr`.
-/

namespace CryThreadUtil

/-! ## Machine integers -/

/-- The C expression `~x` on a 32-bit operand. -/
def not32 (x : Nat) : Nat := (2 ^ 32 - 1) ^^^ (x % 2 ^ 32)

/-- Conversion of an integer expression to a `DWORD` (or `uint`) lvalue. -/
def toDWORD (x : Nat) : Nat := x % 2 ^ 32

/-- Conversion of an integer expression to a `WORD` lvalue. -/
def toWORD (x : Nat) : Nat := x % 2 ^ 16

/-! ## Constants of the platform headers -/

/-- Denormal control group of the abstract control word (`float.h`). -/
def _MCW_DN : Nat := 0x03000000
/-- Flush denormals to zero (`float.h`). -/
def _DN_FLUSH : Nat := 0x01000000
/-- Exception mask group of the abstract control word (`float.h`). -/
def _MCW_EM : Nat := 0x0008001F
/-- Rounding control group of the abstract control word (`float.h`). -/
def _MCW_RC : Nat := 0x00000300
/-- Inexact exception mask (`float.h`). -/
def _EM_INEXACT : Nat := 0x00000001
/-- Underflow exception mask (`float.h`). -/
def _EM_UNDERFLOW : Nat := 0x00000002
/-- Overflow exception mask (`float.h`). -/
def _EM_OVERFLOW : Nat := 0x00000004
/-- Divide by zero exception mask (`float.h`). -/
def _EM_ZERODIVIDE : Nat := 0x00000008
/-- Invalid operation exception mask (`float.h`). -/
def _EM_INVALID : Nat := 0x00000010
/-- Denormal exception mask (`float.h`). -/
def _EM_DENORMAL : Nat := 0x00080000
/-- The name without underscore that `float.h` keeps as an alias of
`_EM_UNDERFLOW`; line 382 of the source spells the constant this way. -/
def EM_UNDERFLOW : Nat := _EM_UNDERFLOW

/-- Inexact status flag (`float.h`). -/
def _SW_INEXACT : Nat := 0x00000001
/-- Underflow status flag (`float.h`). -/
def _SW_UNDERFLOW : Nat := 0x00000002
/-- Overflow status flag (`float.h`). -/
def _SW_OVERFLOW : Nat := 0x00000004
/-- Divide by zero status flag (`float.h`). -/
def _SW_ZERODIVIDE : Nat := 0x00000008
/-- Invalid operation status flag (`float.h`). -/
def _SW_INVALID : Nat := 0x00000010
/-- Denormal status flag (`float.h`). -/
def _SW_DENORMAL : Nat := 0x00080000

/-- MXCSR invalid operation flag (`xmmintrin.h`). -/
def _MM_EXCEPT_INVALID : Nat := 0x0001
/-- MXCSR denormal flag (`xmmintrin.h`). -/
def _MM_EXCEPT_DENORM : Nat := 0x0002
/-- MXCSR divide by zero flag (`xmmintrin.h`). -/
def _MM_EXCEPT_DIV_ZERO : Nat := 0x0004
/-- MXCSR overflow flag (`xmmintrin.h`). -/
def _MM_EXCEPT_OVERFLOW : Nat := 0x0008
/-- MXCSR underflow flag (`xmmintrin.h`). -/
def _MM_EXCEPT_UNDERFLOW : Nat := 0x0010
/-- MXCSR inexact flag (`xmmintrin.h`). -/
def _MM_EXCEPT_INEXACT : Nat := 0x0020
/-- MXCSR invalid operation mask (`xmmintrin.h`). -/
def _MM_MASK_INVALID : Nat := 0x0080
/-- MXCSR denormal mask (`xmmintrin.h`). -/
def _MM_MASK_DENORM : Nat := 0x0100
/-- MXCSR divide by zero mask (`xmmintrin.h`). -/
def _MM_MASK_DIV_ZERO : Nat := 0x0200
/-- MXCSR overflow mask (`xmmintrin.h`). -/
def _MM_MASK_OVERFLOW : Nat := 0x0400
/-- MXCSR underflow mask (`xmmintrin.h`). -/
def _MM_MASK_UNDERFLOW : Nat := 0x0800
/-- MXCSR inexact mask (`xmmintrin.h`). -/
def _MM_MASK_INEXACT : Nat := 0x1000
/-- MXCSR exception mask field (`xmmintrin.h`). -/
def _MM_MASK_MASK : Nat := 0x1F80
/-- MXCSR flush-to-zero field (`xmmintrin.h`). -/
def _MM_FLUSH_ZERO_MASK : Nat := 0x8000
/-- MXCSR flush-to-zero enabled (`xmmintrin.h`). -/
def _MM_FLUSH_ZERO_ON : Nat := 0x8000

/-- Wait result: the object is signaled (`winbase.h`). -/
def WAIT_OBJECT_0 : Nat := 0x00000000
/-- Wait result: abandoned mutex (`winbase.h`). -/
def WAIT_ABANDONED : Nat := 0x00000080
/-- Wait result: the time-out elapsed (`winerror.h`). -/
def WAIT_TIMEOUT : Nat := 0x00000102
/-- Wait result: the wait failed (`winbase.h`). -/
def WAIT_FAILED : Nat := 0xFFFFFFFF
/-- Thread creation flag (`winbase.h`). -/
def CREATE_SUSPENDED : Nat := 0x00000004
/-- Access mask requested from `OpenThread` (`winnt.h`). -/
def THREAD_ALL_ACCESS : Nat := 0x001FFFFF
/-- Context flags selecting every register group (`winnt.h`, AMD64). -/
def CONTEXT_ALL : Nat := 0x0010001F

/-- Line 13 of the source. -/
def DEFAULT_THREAD_STACK_SIZE_KB : Nat := 0

/-- Modelled from the spec: the enumeration `EFPE_Severity` is declared outside
this header; the spec gives it as the ordered enumeration None, Basic, All.
A severity is the integer value of the enumerator. -/
def eFPE_None : Nat := 0
/-- Modelled from the spec: second enumerator of `EFPE_Severity`. -/
def eFPE_Basic : Nat := 1
/-- Modelled from the spec: third enumerator of `EFPE_Severity`. -/
def eFPE_All : Nat := 2
/-- Modelled from the spec: the first value past the enumeration
`EFPE_Severity`, against which the source checks the range. -/
def eFPE_LastEntry : Nat := 3

/-! ## Thread creation and management -/

/-- Thread creation request (`SThreadCreationDesc`); pointers are addresses. -/
structure SThreadCreationDesc where
  szThreadName : String
  fpEntryFunc : Nat
  pArgList : Nat
  nStackSizeInBytes : Nat
deriving DecidableEq, Repr

/-- Target platform selected by the `CRY_PLATFORM_*` build flags. -/
inductive Platform where
  | Durango
  | Windows
  | Other
deriving DecidableEq, Repr

/-- The record handed to the debugger by `CrySetThreadName_SEH`. -/
structure SThreadNameDesc where
  dwType : Nat
  szName : String
  dwThreadID : Nat
  dwFlags : Nat
deriving DecidableEq, Repr

/-- The floating point part of a thread context (`CONTEXT`) that the source
reads or writes: `ContextFlags`, `MxCsr`, `FltSave.ControlWord` and
`FltSave.StatusWord`. -/
structure CONTEXT where
  ContextFlags : Nat
  MxCsr : Nat
  ControlWord : Nat
  StatusWord : Nat
deriving DecidableEq, Repr

/-- Messages passed to `CryWarning` and `CryComment`. -/
inductive Report where
  /-- Text "Unable to create thread ... System Error Msg: ..." -/
  | UnableToCreateThread (szThreadName : String) (errMsg : String)
  /-- Text "New thread ... | StackSize: ...(KB)" -/
  | NewThread (szThreadName : String) (stackSizeKB : Nat)
  /-- Text "Floating Point Exception (FPE) severity is out of range." -/
  | SeverityOutOfRange (eFPESeverity : Nat)
  /-- Text "Unable to open thread." -/
  | UnableToOpenThread (hThread : Nat)
  /-- Text "Unable to get thread context" -/
  | UnableToGetThreadContext
  /-- Text "Error setting ThreadContext for ThreadID: ..." -/
  | ErrorSettingThreadContext (nThreadId : Nat)
deriving DecidableEq, Repr

/-- Calls issued to the operating system, the CRT and the engine log. -/
inductive OsCall where
  | CryWarning (r : Report)
  | CryComment (r : Report)
  | CreateThread (nStackSize fpEntryFunc pArgList dwCreationFlags : Nat)
  | beginthreadex (nStackSize fpEntryFunc pArgList initflag : Nat)
  | RaiseException (dwExceptionCode dwExceptionFlags nNumberOfArguments : Nat)
      (info : SThreadNameDesc)
  | SetThreadName (hThread : Nat) (name : List Nat)
  | SetThreadDescription (hThread : Nat) (lpThreadDescription : List Nat)
  | OpenThread (dwDesiredAccess : Nat) (bInheritHandle : Bool) (dwThreadId : Nat)
  | SuspendThread (hThread : Nat)
  | GetThreadContext (hThread : Nat)
  | SetThreadContext (hThread : Nat) (ctx : CONTEXT)
  | ResumeThread (hThread : Nat)
  | CloseHandle (hThread : Nat)
deriving DecidableEq, Repr

/-- What the environment answers to `CrySetThreadName`. -/
structure NamingEnv where
  platform : Platform
  /-- `GetThreadId`. -/
  GetThreadId : Nat → Nat
  /-- The pseudo handle returned by `GetCurrentThread()`. -/
  GetCurrentThread : Nat
  /-- Whether `GetProcAddress` finds `SetThreadDescription` in Kernel32. -/
  pSetThreadDescription : Bool
  /-- Conversion of the name to wide characters. -/
  toWide : String → List Nat
  /-- The value of `sizeof(info)` for the record `SThreadNameDesc`. -/
  sizeofInfo : Nat

/-- Lines 111-141: the record is filled in and handed to the debugger through
`RaiseException`; the handler swallows the exception. -/
def CrySetThreadName_SEH (env : NamingEnv) (pThreadHandle : Nat) (sThreadName : String) :
    List OsCall :=
  let MS_VC_EXCEPTION : Nat := 0x406D1388
  let info : SThreadNameDesc :=
    { dwType := 0x1000
      szName := sThreadName
      dwThreadID := env.GetThreadId pThreadHandle
      dwFlags := 0 }
  [OsCall.RaiseException MS_VC_EXCEPTION 0 (env.sizeofInfo / 4) info]

/-- Lines 144-166. -/
def CrySetThreadName (env : NamingEnv) (pThreadHandle : Nat) (sThreadName : String) :
    List OsCall :=
  CrySetThreadName_SEH env pThreadHandle sThreadName ++
    match env.platform with
    | Platform.Durango => [OsCall.SetThreadName pThreadHandle (env.toWide sThreadName)]
    | Platform.Windows =>
        if env.pSetThreadDescription then
          [OsCall.SetThreadDescription env.GetCurrentThread (env.toWide sThreadName)]
        else []
    | Platform.Other => []

/-- Result of `CryCreateThread`: the returned flag, the handle stored through
`pThreadHandle` and the calls issued. -/
structure CreateResult where
  ret : Bool
  handle : Nat
  trace : List OsCall
deriving DecidableEq, Repr

/-- Lines 192-217. `created` is the handle answered by the creation primitive
(0 on failure) and `errMsg` the text of `GetLastErrorAsString()`. -/
def CryCreateThread (platform : Platform) (created : Nat) (errMsg : String)
    (threadDesc : SThreadCreationDesc) : CreateResult :=
  let nStackSize : Nat :=
    if threadDesc.nStackSizeInBytes ≠ 0 then threadDesc.nStackSizeInBytes
    else toDWORD (DEFAULT_THREAD_STACK_SIZE_KB * 1024)
  let create : OsCall :=
    match platform with
    | Platform.Durango =>
        OsCall.CreateThread nStackSize threadDesc.fpEntryFunc threadDesc.pArgList CREATE_SUSPENDED
    | _ =>
        OsCall.beginthreadex nStackSize threadDesc.fpEntryFunc threadDesc.pArgList CREATE_SUSPENDED
  if created = 0 then
    { ret := false
      handle := created
      trace := [create,
        OsCall.CryWarning (Report.UnableToCreateThread threadDesc.szThreadName errMsg)] }
  else
    { ret := true
      handle := created
      trace := [create, OsCall.ResumeThread created,
        OsCall.CryComment
          (Report.NewThread threadDesc.szThreadName (threadDesc.nStackSizeInBytes / 1024))] }

/-- Lines 229-244. `WaitForSingleObject` is the wait primitive of the system. -/
def CryIsThreadAlive (WaitForSingleObject : Nat → Nat → Nat) (pThreadHandle : Nat) : Bool :=
  let ret := WaitForSingleObject pThreadHandle 0
  if ret = WAIT_OBJECT_0 then false
  else if ret = WAIT_ABANDONED ∨ ret = WAIT_TIMEOUT ∨ ret = WAIT_FAILED then true
  else true

/-! ## Floating point exceptions -/

/-- Floating point state of the calling thread: the abstract control word
behind `_controlfp`, the abstract status word behind `_clearfp`, and MXCSR. -/
structure FpuState where
  control : Nat
  status : Nat
  mxcsr : Nat
deriving DecidableEq, Repr

/-- CRT `_controlfp(newVal, mask)`: the bits of the control word selected by
`mask` are replaced by those of `newVal`. -/
def _controlfp (newVal mask : Nat) (s : FpuState) : FpuState :=
  { s with control := (s.control &&& not32 mask) ||| (newVal &&& mask) }

/-- CRT `_controlfp_s(&cur, newVal, mask)`: as `_controlfp`, and the resulting
control word is stored in `cur`. -/
def _controlfp_s (newVal mask : Nat) (s : FpuState) : Nat × FpuState :=
  let s1 := _controlfp newVal mask s
  (s1.control, s1)

/-- CRT `_clearfp()`: the status word is cleared. -/
def _clearfp (s : FpuState) : FpuState :=
  { s with status := 0 }

/-- Intrinsic `_mm_getcsr()`. -/
def _mm_getcsr (s : FpuState) : Nat := s.mxcsr

/-- Intrinsic `_mm_setcsr(v)`, a write of the 32-bit register. -/
def _mm_setcsr (v : Nat) (s : FpuState) : FpuState :=
  { s with mxcsr := toDWORD v }

/-- An instance of the CRT `_fpreset()`, which reinitialises the floating
point package: default control word, clear status, default MXCSR. The
embedded functions take `_fpreset` as a parameter; this instance serves to
evaluate them. -/
def fpresetDefault (_s : FpuState) : FpuState :=
  { control := 0x0008001F, status := 0, mxcsr := 0x1F80 }

/-- Lines 254-307: `EnableFloatExceptions(EFPE_Severity)`, applied to the
calling thread. `fpreset` is the CRT `_fpreset()`. -/
def EnableFloatExceptions (fpreset : FpuState → FpuState) (eFPESeverity : Nat)
    (s0 : FpuState) : FpuState :=
  let s1 := _controlfp _DN_FLUSH _MCW_DN s0
  let s2 := _mm_setcsr (_mm_getcsr s1 ||| _MM_FLUSH_ZERO_ON) s1
  if eFPESeverity = eFPE_None then
    let s3 := _controlfp _MCW_EM _MCW_EM s2
    _mm_setcsr (_mm_getcsr s3 ||| _MM_MASK_MASK) s3
  else
    let s3 := fpreset s2
    let s4 :=
      if eFPESeverity = eFPE_Basic then
        let t := _controlfp (_EM_INEXACT ||| _EM_DENORMAL ||| _EM_UNDERFLOW ||| _EM_OVERFLOW)
          _MCW_EM s3
        _mm_setcsr ((_mm_getcsr t &&& not32 _MM_MASK_MASK) |||
          (_MM_MASK_DENORM ||| _MM_MASK_INEXACT ||| _MM_MASK_UNDERFLOW ||| _MM_MASK_OVERFLOW)) t
      else s3
    if eFPESeverity = eFPE_All then
      let t := _controlfp (_EM_INEXACT ||| _EM_DENORMAL) _MCW_EM s4
      _mm_setcsr ((_mm_getcsr t &&& not32 _MM_MASK_MASK) |||
        (_MM_MASK_INEXACT ||| _MM_MASK_DENORM)) t
    else s4

/-- Lines 349-402: the rewrite of the context snapshot in
`EnableFloatExceptions(threadID, EFPE_Severity)`. `ControlWord` and
`StatusWord` are `WORD` lvalues, `MxCsr` is a `DWORD` lvalue. -/
def mutateContext (eFPESeverity : Nat) (ctx : CONTEXT) : CONTEXT :=
  let floatMxCsr := ctx.MxCsr
  let floatControlWord := ctx.ControlWord
  let floatStatuslWord := ctx.StatusWord
  -- Set flush mode to zero mode
  let floatControlWord := toWORD ((floatControlWord &&& not32 _MCW_DN) ||| _DN_FLUSH)
  let floatMxCsr := toDWORD ((floatMxCsr &&& not32 _MM_FLUSH_ZERO_MASK) ||| _MM_FLUSH_ZERO_ON)
  -- Reset FPE bits
  let floatControlWord := toWORD (floatControlWord ||| _MCW_EM)
  let floatMxCsr := toDWORD (floatMxCsr ||| _MM_MASK_MASK)
  -- Clear pending exceptions
  let floatStatuslWord := toWORD (floatStatuslWord &&&
    not32 (_SW_INEXACT ||| _SW_UNDERFLOW ||| _SW_OVERFLOW ||| _SW_ZERODIVIDE ||| _SW_INVALID |||
      _SW_DENORMAL))
  let floatMxCsr := toDWORD (floatMxCsr &&&
    not32 (_MM_EXCEPT_INEXACT ||| _MM_EXCEPT_UNDERFLOW ||| _MM_EXCEPT_OVERFLOW |||
      _MM_EXCEPT_DIV_ZERO ||| _MM_EXCEPT_INVALID ||| _MM_EXCEPT_DENORM))
  let floatControlWord :=
    if eFPESeverity = eFPE_Basic then
      toWORD ((floatControlWord &&& not32 _MCW_EM) |||
        (_EM_DENORMAL ||| _EM_INEXACT ||| EM_UNDERFLOW ||| _EM_OVERFLOW))
    else floatControlWord
  let floatMxCsr :=
    if eFPESeverity = eFPE_Basic then
      toDWORD ((floatMxCsr &&& not32 _MM_MASK_MASK) |||
        (_MM_MASK_DENORM ||| _MM_MASK_INEXACT ||| _MM_MASK_UNDERFLOW ||| _MM_MASK_OVERFLOW))
    else floatMxCsr
  let floatControlWord :=
    if eFPESeverity = eFPE_All then
      toWORD ((floatControlWord &&& not32 _MCW_EM) ||| (_EM_INEXACT ||| _EM_DENORMAL))
    else floatControlWord
  let floatMxCsr :=
    if eFPESeverity = eFPE_All then
      toDWORD ((floatMxCsr &&& not32 _MM_MASK_MASK) ||| (_MM_MASK_INEXACT ||| _MM_MASK_DENORM))
    else floatMxCsr
  { ContextFlags := CONTEXT_ALL
    MxCsr := floatMxCsr
    ControlWord := floatControlWord
    StatusWord := floatStatuslWord }

/-- What the system answers to the calls of
`EnableFloatExceptions(threadID, EFPE_Severity)`. -/
structure OsOutcome where
  /-- `CryGetCurrentThreadId()`. -/
  currentThreadId : Nat
  /-- The handle answered by `OpenThread`, 0 on failure. -/
  hThread : Nat
  /-- The snapshot filled in by `GetThreadContext`, `none` when it returns 0. -/
  getThreadContext : Option CONTEXT
  /-- Whether `SetThreadContext` returns a nonzero value. -/
  setThreadContext : Bool
deriving DecidableEq, Repr

/-- Result of `EnableFloatExceptions(threadID, EFPE_Severity)`: the calls
issued, the floating point state of the caller, and the context installed in
the target thread by a successful `SetThreadContext`, if any. -/
structure ApplyResult where
  trace : List OsCall
  self : FpuState
  installed : Option CONTEXT
deriving DecidableEq, Repr

/-- Lines 312-315: the range check of the severity, which issues a warning and
falls through. -/
def severityRangeCheck (eFPESeverity : Nat) : List OsCall :=
  if eFPESeverity ≥ eFPE_LastEntry then
    [OsCall.CryWarning (Report.SeverityOutOfRange eFPESeverity)]
  else []

/-- Lines 310-413: `EnableFloatExceptions(threadID, EFPE_Severity)`. -/
def EnableFloatExceptionsFor (fpreset : FpuState → FpuState) (os : OsOutcome)
    (nThreadId eFPESeverity : Nat) (self : FpuState) : ApplyResult :=
  let t0 : List OsCall := severityRangeCheck eFPESeverity
  if nThreadId = 0 ∨ nThreadId = os.currentThreadId then
    { trace := t0, self := EnableFloatExceptions fpreset eFPESeverity self, installed := none }
  else
    let hThread := os.hThread
    let t1 := t0 ++ [OsCall.OpenThread THREAD_ALL_ACCESS true nThreadId]
    if hThread = 0 then
      { trace := t1 ++ [OsCall.CryWarning (Report.UnableToOpenThread hThread)]
        self := self, installed := none }
    else
      let t2 := t1 ++ [OsCall.SuspendThread hThread, OsCall.GetThreadContext hThread]
      match os.getThreadContext with
      | none =>
          { trace := t2 ++ [OsCall.CryWarning Report.UnableToGetThreadContext,
              OsCall.ResumeThread hThread, OsCall.CloseHandle hThread]
            self := self, installed := none }
      | some snapshot =>
          let ctx := mutateContext eFPESeverity snapshot
          let t3 := t2 ++ [OsCall.SetThreadContext hThread ctx]
          if os.setThreadContext = false then
            { trace := t3 ++ [OsCall.CryWarning (Report.ErrorSettingThreadContext nThreadId),
                OsCall.ResumeThread hThread, OsCall.CloseHandle hThread]
              self := self, installed := none }
          else
            { trace := t3 ++ [OsCall.ResumeThread hThread, OsCall.CloseHandle hThread]
              self := self, installed := some ctx }

/-- The context of the target thread after the call, given its context
before the call. -/
def targetAfter (before : CONTEXT) (r : ApplyResult) : CONTEXT :=
  match r.installed with
  | some ctx => ctx
  | none => before

/-- Lines 416-422: the returned value and the state after the call. -/
def GetFloatingPointExceptionMask (s : FpuState) : Nat × FpuState :=
  let s1 := _clearfp s
  _controlfp_s 0 0 s1

/-- Lines 425-433. -/
def SetFloatingPointExceptionMask (nMask : Nat) (s : FpuState) : FpuState :=
  let s1 := _clearfp s
  let kAllowedBits := _MCW_DN ||| _MCW_EM ||| _MCW_RC
  (_controlfp_s nMask kAllowedBits s1).2

/-- Whether a call is `SuspendThread`. -/
def OsCall.isSuspend : OsCall → Bool
  | OsCall.SuspendThread _ => true
  | _ => false

/-- Whether a call is `ResumeThread`. -/
def OsCall.isResume : OsCall → Bool
  | OsCall.ResumeThread _ => true
  | _ => false

/-- Whether a call is `GetThreadContext` or `SetThreadContext`. -/
def OsCall.isContextAccess : OsCall → Bool
  | OsCall.GetThreadContext _ => true
  | OsCall.SetThreadContext _ _ => true
  | _ => false

/-! ## Auxiliary definitions for the statements -/

/-- Calls that neither suspend nor resume a thread nor access its context. -/
def OsCall.isNeutral (c : OsCall) : Bool :=
  !c.isSuspend && !c.isResume && !c.isContextAccess

/-- An environment in which Kernel32 exports `SetThreadDescription`, the
calling thread has id 1 and the handle 0x1A4 refers to thread 7. -/
def namingEnvWindows10 : NamingEnv :=
  { platform := Platform.Windows
    GetThreadId := fun h => if h = 0x1A4 then 7 else 1
    GetCurrentThread := 0xFFFFFFFE
    pSetThreadDescription := true
    toWide := fun name => name.toList.map Char.toNat
    sizeofInfo := 24 }

/-- The set of MXCSR mask bits the specification gives for a severity: all of
`_MM_MASK_MASK` for None, denormal, inexact, underflow and overflow for Basic,
inexact and denormal for All. -/
def specMxCsrMask (severity : Nat) : Nat :=
  if severity = eFPE_None then _MM_MASK_MASK
  else if severity = eFPE_Basic then
    _MM_MASK_DENORM ||| _MM_MASK_INEXACT ||| _MM_MASK_UNDERFLOW ||| _MM_MASK_OVERFLOW
  else _MM_MASK_INEXACT ||| _MM_MASK_DENORM

/-- The set of exception mask bits of the control word that the specification
gives for a severity: all of `_MCW_EM` for None, inexact, denormal, underflow and
overflow for Basic, inexact and denormal for All. -/
def specControlMask (severity : Nat) : Nat :=
  if severity = eFPE_None then _MCW_EM
  else if severity = eFPE_Basic then
    _EM_INEXACT ||| _EM_DENORMAL ||| _EM_UNDERFLOW ||| _EM_OVERFLOW
  else _EM_INEXACT ||| _EM_DENORMAL

/-- The state on which the self-apply path calls `_fpreset()` when the
severity is not None (lines 259-260). -/
def stateBeforeFpreset (s : FpuState) : FpuState :=
  _mm_setcsr (_mm_getcsr (_controlfp _DN_FLUSH _MCW_DN s) ||| _MM_FLUSH_ZERO_ON)
    (_controlfp _DN_FLUSH _MCW_DN s)

/-! ## Thread creation and liveness -/

/-- C9: `CryIsThreadAlive` returns false exactly when the zero-timeout wait on
the handle reports `WAIT_OBJECT_0`; for `WAIT_TIMEOUT`, `WAIT_ABANDONED`,
`WAIT_FAILED` and every other result it returns true. -/
theorem CryIsThreadAlive_false_iff_signaled (WaitForSingleObject : Nat → Nat → Nat)
    (pThreadHandle : Nat) :
    (CryIsThreadAlive WaitForSingleObject pThreadHandle = false ↔
      WaitForSingleObject pThreadHandle 0 = WAIT_OBJECT_0) ∧
    (CryIsThreadAlive WaitForSingleObject pThreadHandle = true ↔
      WaitForSingleObject pThreadHandle 0 ≠ WAIT_OBJECT_0) ∧
    (WaitForSingleObject pThreadHandle 0 = WAIT_TIMEOUT ∨
      WaitForSingleObject pThreadHandle 0 = WAIT_ABANDONED ∨
      WaitForSingleObject pThreadHandle 0 = WAIT_FAILED →
      CryIsThreadAlive WaitForSingleObject pThreadHandle = true) := by
  refine ⟨?_, ?_, ?_⟩
  · unfold CryIsThreadAlive
    by_cases h : WaitForSingleObject pThreadHandle 0 = WAIT_OBJECT_0 <;> simp [h]
  · unfold CryIsThreadAlive
    by_cases h : WaitForSingleObject pThreadHandle 0 = WAIT_OBJECT_0 <;> simp [h]
  · intro h
    have hne : WaitForSingleObject pThreadHandle 0 ≠ WAIT_OBJECT_0 := by
      rcases h with h | h | h <;> rw [h] <;> decide
    unfold CryIsThreadAlive
    simp [hne]

/-- C9, evaluated: a wait that times out or fails reports a live thread, a
signaled wait reports a dead one. -/
theorem CryIsThreadAlive_false_iff_signaled_witness :
    CryIsThreadAlive (fun _ _ => WAIT_TIMEOUT) 7 = true ∧
    CryIsThreadAlive (fun _ _ => WAIT_FAILED) 7 = true ∧
    CryIsThreadAlive (fun _ _ => WAIT_OBJECT_0) 7 = false :=
  ⟨(CryIsThreadAlive_false_iff_signaled (fun _ _ => WAIT_TIMEOUT) 7).2.2 (Or.inl rfl),
   (CryIsThreadAlive_false_iff_signaled (fun _ _ => WAIT_FAILED) 7).2.2 (Or.inr (Or.inr rfl)),
   (CryIsThreadAlive_false_iff_signaled (fun _ _ => WAIT_OBJECT_0) 7).1.2 rfl⟩

/-- C8: `CryCreateThread` returns true exactly when the stored handle is not
null. When creation fails it returns false, stores a null handle and issues no
`ResumeThread`. When creation succeeds the trace is the creation call, with the
requested stack size, entry function, argument pointer and `CREATE_SUSPENDED`,
followed by one `ResumeThread` on the new handle and no further one. -/
theorem CryCreateThread_contract (platform : Platform) (created : Nat) (errMsg : String)
    (threadDesc : SThreadCreationDesc) :
    ((CryCreateThread platform created errMsg threadDesc).ret = true ↔
      (CryCreateThread platform created errMsg threadDesc).handle ≠ 0) ∧
    (created = 0 →
      (CryCreateThread platform created errMsg threadDesc).ret = false ∧
      (CryCreateThread platform created errMsg threadDesc).handle = 0 ∧
      ∀ c ∈ (CryCreateThread platform created errMsg threadDesc).trace, c.isResume = false) ∧
    (created ≠ 0 →
      (CryCreateThread platform created errMsg threadDesc).ret = true ∧
      (CryCreateThread platform created errMsg threadDesc).handle = created ∧
      ∃ create rest,
        (CryCreateThread platform created errMsg threadDesc).trace =
          create :: OsCall.ResumeThread created :: rest ∧
        (create = OsCall.CreateThread threadDesc.nStackSizeInBytes threadDesc.fpEntryFunc
            threadDesc.pArgList CREATE_SUSPENDED ∨
          create = OsCall.beginthreadex threadDesc.nStackSizeInBytes threadDesc.fpEntryFunc
            threadDesc.pArgList CREATE_SUSPENDED) ∧
        ∀ c ∈ rest, c.isResume = false) := by
  have hstack : (if threadDesc.nStackSizeInBytes ≠ 0 then threadDesc.nStackSizeInBytes
      else toDWORD (DEFAULT_THREAD_STACK_SIZE_KB * 1024)) = threadDesc.nStackSizeInBytes := by
    by_cases h0 : threadDesc.nStackSizeInBytes = 0
    · simp [h0, toDWORD, DEFAULT_THREAD_STACK_SIZE_KB]
    · simp [h0]
  by_cases hc : created = 0
  · cases platform <;> simp [CryCreateThread, hc, OsCall.isResume]
  · refine ⟨?_, ?_, ?_⟩
    · simp [CryCreateThread, hc]
    · intro h0
      exact absurd h0 hc
    · intro _
      refine ⟨?_, ?_, ?_⟩
      · simp [CryCreateThread, hc]
      · simp [CryCreateThread, hc]
      · cases platform
        · exact ⟨_, _, by simp only [CryCreateThread, hc, hstack, if_false]; rfl, Or.inl rfl,
            by simp [OsCall.isResume]⟩
        · exact ⟨_, _, by simp only [CryCreateThread, hc, hstack, if_false]; rfl, Or.inr rfl,
            by simp [OsCall.isResume]⟩
        · exact ⟨_, _, by simp only [CryCreateThread, hc, hstack, if_false]; rfl, Or.inr rfl,
            by simp [OsCall.isResume]⟩

/-- C8, evaluated on a request with default stack size whose creation
succeeds with handle 0x1A4. -/
theorem CryCreateThread_contract_witness :
    (CryCreateThread Platform.Windows 0x1A4 "" ⟨"Worker", 0x401000, 0x7FF0, 0⟩).ret = true ∧
    (CryCreateThread Platform.Windows 0x1A4 "" ⟨"Worker", 0x401000, 0x7FF0, 0⟩).handle = 0x1A4 ∧
    (CryCreateThread Platform.Windows 0x1A4 "" ⟨"Worker", 0x401000, 0x7FF0, 0⟩).trace =
      [OsCall.beginthreadex 0 0x401000 0x7FF0 CREATE_SUSPENDED, OsCall.ResumeThread 0x1A4,
        OsCall.CryComment (Report.NewThread "Worker" 0)] :=
  ⟨((CryCreateThread_contract Platform.Windows 0x1A4 ""
      ⟨"Worker", 0x401000, 0x7FF0, 0⟩).2.2 (by decide)).1,
   ((CryCreateThread_contract Platform.Windows 0x1A4 ""
      ⟨"Worker", 0x401000, 0x7FF0, 0⟩).2.2 (by decide)).2.1, rfl⟩

/-! ## Suspend and resume in the cross-thread path -/

/-- Shape of the trace of the cross-thread path: either `OpenThread` failed and
only neutral calls were issued, or the trace is a neutral prefix, then
`SuspendThread`, `GetThreadContext`, at most one `SetThreadContext` among
neutral calls, and finally `ResumeThread` and `CloseHandle`. -/
theorem EnableFloatExceptionsFor_trace_shape (fpreset : FpuState → FpuState) (os : OsOutcome)
    (nThreadId eFPESeverity : Nat) (self : FpuState)
    (h0 : nThreadId ≠ 0) (hcur : nThreadId ≠ os.currentThreadId) :
    (os.hThread = 0 ∧
      ∀ c ∈ (EnableFloatExceptionsFor fpreset os nThreadId eFPESeverity self).trace,
        c.isNeutral = true) ∨
    (os.hThread ≠ 0 ∧ ∃ pre mid,
      (EnableFloatExceptionsFor fpreset os nThreadId eFPESeverity self).trace =
        pre ++ OsCall.SuspendThread os.hThread :: OsCall.GetThreadContext os.hThread :: mid ++
          [OsCall.ResumeThread os.hThread, OsCall.CloseHandle os.hThread] ∧
      (∀ c ∈ pre, c.isNeutral = true) ∧
      (∀ c ∈ mid, c.isSuspend = false ∧ c.isResume = false)) := by
  have ht0 : ∀ c ∈ severityRangeCheck eFPESeverity, c.isNeutral = true := by
    intro c hc
    by_cases hs : eFPESeverity ≥ eFPE_LastEntry
    · simp [severityRangeCheck, hs] at hc
      subst hc
      rfl
    · simp [severityRangeCheck, hs] at hc
  by_cases hT : os.hThread = 0
  · left
    refine ⟨hT, ?_⟩
    intro c hc
    simp only [EnableFloatExceptionsFor, h0, hcur, hT, or_self, if_false, if_true,
      List.mem_append, List.mem_cons, List.mem_singleton, List.not_mem_nil, or_false] at hc
    rcases hc with (hc | hc) | hc
    · exact ht0 c hc
    · subst hc
      rfl
    · subst hc
      rfl
  · right
    refine ⟨hT, ?_⟩
    cases hg : os.getThreadContext with
    | none =>
      refine ⟨severityRangeCheck eFPESeverity ++
          [OsCall.OpenThread THREAD_ALL_ACCESS true nThreadId],
        [OsCall.CryWarning Report.UnableToGetThreadContext], ?_, ?_, ?_⟩
      · simp [EnableFloatExceptionsFor, h0, hcur, hT, hg]
      · intro c hc
        simp only [List.mem_append, List.mem_singleton] at hc
        rcases hc with hc | hc
        · exact ht0 c hc
        · subst hc
          rfl
      · intro c hc
        simp only [List.mem_singleton] at hc
        subst hc
        exact ⟨rfl, rfl⟩
    | some snapshot =>
      cases hs : os.setThreadContext with
      | false =>
        refine ⟨severityRangeCheck eFPESeverity ++
          [OsCall.OpenThread THREAD_ALL_ACCESS true nThreadId],
          [OsCall.SetThreadContext os.hThread (mutateContext eFPESeverity snapshot),
            OsCall.CryWarning (Report.ErrorSettingThreadContext nThreadId)], ?_, ?_, ?_⟩
        · simp [EnableFloatExceptionsFor, h0, hcur, hT, hg, hs]
        · intro c hc
          simp only [List.mem_append, List.mem_singleton] at hc
          rcases hc with hc | hc
          · exact ht0 c hc
          · subst hc
            rfl
        · intro c hc
          simp only [List.mem_cons, List.mem_singleton, List.not_mem_nil, or_false] at hc
          rcases hc with hc | hc <;> subst hc <;> exact ⟨rfl, rfl⟩
      | true =>
        refine ⟨severityRangeCheck eFPESeverity ++
          [OsCall.OpenThread THREAD_ALL_ACCESS true nThreadId],
          [OsCall.SetThreadContext os.hThread (mutateContext eFPESeverity snapshot)], ?_, ?_, ?_⟩
        · simp [EnableFloatExceptionsFor, h0, hcur, hT, hg, hs]
        · intro c hc
          simp only [List.mem_append, List.mem_singleton] at hc
          rcases hc with hc | hc
          · exact ht0 c hc
          · subst hc
            rfl
        · intro c hc
          simp only [List.mem_singleton] at hc
          subst hc
          exact ⟨rfl, rfl⟩

/-- A list without `ResumeThread` calls counts none. -/
theorem count_resume_eq_zero (l : List OsCall) (h : Nat)
    (hl : ∀ c ∈ l, c.isResume = false) : l.count (OsCall.ResumeThread h) = 0 := by
  rw [List.count_eq_zero]
  intro hmem
  have := hl _ hmem
  simp [OsCall.isResume] at this

/-- A list without `SuspendThread` calls counts none. -/
theorem count_suspend_eq_zero (l : List OsCall) (h : Nat)
    (hl : ∀ c ∈ l, c.isSuspend = false) : l.count (OsCall.SuspendThread h) = 0 := by
  rw [List.count_eq_zero]
  intro hmem
  have := hl _ hmem
  simp [OsCall.isSuspend] at this

/-- A neutral call is no `ResumeThread`, no `SuspendThread` and no context
access. -/
theorem isNeutral_iff (c : OsCall) :
    c.isNeutral = true ↔
      c.isSuspend = false ∧ c.isResume = false ∧ c.isContextAccess = false := by
  cases c <;> simp [OsCall.isNeutral, OsCall.isSuspend, OsCall.isResume, OsCall.isContextAccess]

/-- C1: in the cross-thread path (thread id neither 0 nor the caller's), for
every severity and every outcome of `OpenThread`, `GetThreadContext` and
`SetThreadContext`: the trace holds as many `ResumeThread` as `SuspendThread`
calls on every handle; if `SuspendThread` was called on a handle, the handle is
the one answered by `OpenThread`, `ResumeThread` is called on it exactly once,
no `ResumeThread` precedes that call and only calls that neither suspend,
resume nor access the context follow it; and when `OpenThread` fails no
`SuspendThread`, `GetThreadContext`, `SetThreadContext` or `ResumeThread` call
is made. -/
theorem EnableFloatExceptionsFor_resumes_suspended (fpreset : FpuState → FpuState)
    (os : OsOutcome) (nThreadId eFPESeverity : Nat) (self : FpuState)
    (h0 : nThreadId ≠ 0) (hcur : nThreadId ≠ os.currentThreadId) :
    (∀ h, (EnableFloatExceptionsFor fpreset os nThreadId eFPESeverity self).trace.count
        (OsCall.ResumeThread h) =
      (EnableFloatExceptionsFor fpreset os nThreadId eFPESeverity self).trace.count
        (OsCall.SuspendThread h)) ∧
    (∀ h, OsCall.SuspendThread h ∈
        (EnableFloatExceptionsFor fpreset os nThreadId eFPESeverity self).trace →
      h = os.hThread ∧
      (EnableFloatExceptionsFor fpreset os nThreadId eFPESeverity self).trace.count
        (OsCall.ResumeThread h) = 1 ∧
      ∃ before after,
        (EnableFloatExceptionsFor fpreset os nThreadId eFPESeverity self).trace =
          before ++ OsCall.ResumeThread h :: after ∧
        OsCall.SuspendThread h ∈ before ∧
        (∀ c ∈ before, c.isResume = false) ∧
        (∀ c ∈ after, c.isNeutral = true)) ∧
    (os.hThread = 0 →
      ∀ c ∈ (EnableFloatExceptionsFor fpreset os nThreadId eFPESeverity self).trace,
        c.isSuspend = false ∧ c.isResume = false ∧ c.isContextAccess = false) := by
  rcases EnableFloatExceptionsFor_trace_shape fpreset os nThreadId eFPESeverity self h0 hcur with
    ⟨hT, hall⟩ | ⟨hT, pre, mid, htr, hpre, hmid⟩
  · have hall2 := fun c hc => (isNeutral_iff c).1 (hall c hc)
    refine ⟨?_, ?_, ?_⟩
    · intro h
      rw [count_resume_eq_zero _ h (fun c hc => (hall2 c hc).2.1),
        count_suspend_eq_zero _ h (fun c hc => (hall2 c hc).1)]
    · intro h hmem
      have := (hall2 _ hmem).1
      simp [OsCall.isSuspend] at this
    · intro _ c hc
      exact hall2 c hc
  · have hpre2 := fun c hc => (isNeutral_iff c).1 (hpre c hc)
    have hcount : ∀ h, (EnableFloatExceptionsFor fpreset os nThreadId eFPESeverity self).trace.count
        (OsCall.ResumeThread h) = if os.hThread = h then 1 else 0 := by
      intro h
      rw [htr]
      simp [List.count_append, List.count_cons,
        count_resume_eq_zero pre h (fun c hc => (hpre2 c hc).2.1),
        count_resume_eq_zero mid h (fun c hc => (hmid c hc).2)]
    have hcountS : ∀ h, (EnableFloatExceptionsFor fpreset os nThreadId eFPESeverity self).trace.count
        (OsCall.SuspendThread h) = if os.hThread = h then 1 else 0 := by
      intro h
      rw [htr]
      simp [List.count_append, List.count_cons,
        count_suspend_eq_zero pre h (fun c hc => (hpre2 c hc).1),
        count_suspend_eq_zero mid h (fun c hc => (hmid c hc).1)]
    refine ⟨?_, ?_, ?_⟩
    · intro h
      rw [hcount, hcountS]
    · intro h hmem
      have hh : os.hThread = h := by
        by_contra hne
        have hz := hcountS h
        rw [if_neg hne, List.count_eq_zero] at hz
        exact hz hmem
      subst hh
      refine ⟨rfl, ?_, ?_⟩
      · rw [hcount, if_pos rfl]
      · refine ⟨pre ++ OsCall.SuspendThread os.hThread :: OsCall.GetThreadContext os.hThread ::
          mid, [OsCall.CloseHandle os.hThread], ?_, ?_, ?_, ?_⟩
        · rw [htr]
        · simp
        · intro c hc
          simp only [List.mem_append, List.mem_cons] at hc
          rcases hc with hc | hc | hc | hc
          · exact (hpre2 c hc).2.1
          · subst hc
            rfl
          · subst hc
            rfl
          · exact (hmid c hc).2
        · intro c hc
          simp only [List.mem_singleton] at hc
          subst hc
          rfl
    · intro hz
      exact absurd hz hT

/-- C1, evaluated where `GetThreadContext` fails after a successful
`OpenThread`: one suspend, one resume. -/
theorem EnableFloatExceptionsFor_resumes_suspended_witness :
    (2 : Nat) ≠ 0 ∧ (2 : Nat) ≠ (⟨1, 0x64, none, false⟩ : OsOutcome).currentThreadId ∧
    (EnableFloatExceptionsFor fpresetDefault ⟨1, 0x64, none, false⟩ 2 eFPE_Basic
        ⟨0x0008001F, 0, 0x1F80⟩).trace.count (OsCall.ResumeThread 0x64) = 1 ∧
    (EnableFloatExceptionsFor fpresetDefault ⟨1, 0x64, none, false⟩ 2 eFPE_Basic
        ⟨0x0008001F, 0, 0x1F80⟩).trace.count (OsCall.SuspendThread 0x64) = 1 :=
  ⟨by decide, by decide,
   ((EnableFloatExceptionsFor_resumes_suspended fpresetDefault ⟨1, 0x64, none, false⟩ 2
      eFPE_Basic ⟨0x0008001F, 0, 0x1F80⟩ (by decide) (by decide)).2.1 0x64 (by decide)).2.1,
   by decide⟩

/-! ## Evaluations of the cross-thread path and of thread naming -/

/-- C2 (fails on the code): with severity `eFPE_LastEntry`, target thread 2,
caller thread 1 and every system call succeeding, the function issues the
warning and goes on: it opens and suspends the target and writes a context
whose MXCSR is 0x9F80 where the target had 0x9D00. -/
theorem EnableFloatExceptionsFor_out_of_range_rewrites_target :
    eFPE_LastEntry ≥ eFPE_LastEntry ∧
    (EnableFloatExceptionsFor fpresetDefault
        ⟨1, 0x64, some ⟨CONTEXT_ALL, 0x9D00, 0x027F, 0⟩, true⟩ 2 eFPE_LastEntry
        ⟨0x0008001F, 0, 0x1F80⟩).trace =
      [OsCall.CryWarning (Report.SeverityOutOfRange 3),
       OsCall.OpenThread THREAD_ALL_ACCESS true 2,
       OsCall.SuspendThread 0x64,
       OsCall.GetThreadContext 0x64,
       OsCall.SetThreadContext 0x64 ⟨CONTEXT_ALL, 0x9F80, 0x027F, 0⟩,
       OsCall.ResumeThread 0x64,
       OsCall.CloseHandle 0x64] ∧
    targetAfter ⟨CONTEXT_ALL, 0x9D00, 0x027F, 0⟩
        (EnableFloatExceptionsFor fpresetDefault
          ⟨1, 0x64, some ⟨CONTEXT_ALL, 0x9D00, 0x027F, 0⟩, true⟩ 2 eFPE_LastEntry
          ⟨0x0008001F, 0, 0x1F80⟩) =
      ⟨CONTEXT_ALL, 0x9F80, 0x027F, 0⟩ ∧
    (⟨CONTEXT_ALL, 0x9F80, 0x027F, 0⟩ : CONTEXT) ≠ ⟨CONTEXT_ALL, 0x9D00, 0x027F, 0⟩ := by
  refine ⟨by decide, by decide, by decide, by decide⟩

/-- C7 (fails on the code): naming the thread behind handle 0x1A4 (thread 7)
from thread 1 sends the debugger record for thread 7, but passes the pseudo
handle of the calling thread, not 0x1A4, to `SetThreadDescription`. -/
theorem CrySetThreadName_describes_calling_thread :
    CrySetThreadName namingEnvWindows10 0x1A4 "Worker" =
      [OsCall.RaiseException 0x406D1388 0 6 ⟨0x1000, "Worker", 7, 0⟩,
       OsCall.SetThreadDescription 0xFFFFFFFE [87, 111, 114, 107, 101, 114]] ∧
    OsCall.SetThreadDescription 0x1A4 [87, 111, 114, 107, 101, 114] ∉
      CrySetThreadName namingEnvWindows10 0x1A4 "Worker" := by
  refine ⟨by decide, by decide⟩

/-- C3 (fails on the code): from the control word 0x027F the word written
back has no bit under `_MCW_DN` and, under `_MCW_EM`, 0x1F for None, 0x07 for
Basic and 0x01 for All: `_DN_FLUSH` and `_EM_DENORMAL` do not fit the 16-bit
field. -/
theorem mutateContext_ControlWord_drops_high_bits :
    (mutateContext eFPE_None ⟨CONTEXT_ALL, 0x1F80, 0x027F, 0⟩).ControlWord = 0x027F ∧
    (mutateContext eFPE_None ⟨CONTEXT_ALL, 0x1F80, 0x027F, 0⟩).ControlWord &&& _MCW_DN = 0 ∧
    (mutateContext eFPE_None ⟨CONTEXT_ALL, 0x1F80, 0x027F, 0⟩).ControlWord &&& _MCW_DN
      ≠ _DN_FLUSH ∧
    (mutateContext eFPE_None ⟨CONTEXT_ALL, 0x1F80, 0x027F, 0⟩).ControlWord &&& _MCW_EM = 0x1F ∧
    (mutateContext eFPE_None ⟨CONTEXT_ALL, 0x1F80, 0x027F, 0⟩).ControlWord &&& _MCW_EM
      ≠ _MCW_EM ∧
    (mutateContext eFPE_Basic ⟨CONTEXT_ALL, 0x1F80, 0x027F, 0⟩).ControlWord &&& _MCW_EM = 0x07 ∧
    (mutateContext eFPE_Basic ⟨CONTEXT_ALL, 0x1F80, 0x027F, 0⟩).ControlWord &&& _MCW_EM
      ≠ _EM_DENORMAL ||| _EM_INEXACT ||| _EM_UNDERFLOW ||| _EM_OVERFLOW ∧
    (mutateContext eFPE_All ⟨CONTEXT_ALL, 0x1F80, 0x027F, 0⟩).ControlWord &&& _MCW_EM = 0x01 ∧
    (mutateContext eFPE_All ⟨CONTEXT_ALL, 0x1F80, 0x027F, 0⟩).ControlWord &&& _MCW_EM
      ≠ _EM_INEXACT ||| _EM_DENORMAL := by
  refine ⟨by decide, by decide, by decide, by decide, by decide, by decide, by decide,
    by decide, by decide⟩

/-! ## Bit-level reasoning on 32-bit words -/

/-- Two words below `2 ^ 32` are equal when their low 32 bits agree. -/
theorem eq_of_low32_bits (a b : Nat) (ha : a < 2 ^ 32) (hb : b < 2 ^ 32)
    (h : ∀ i, i < 32 → a.testBit i = b.testBit i) : a = b := by
  apply Nat.eq_of_testBit_eq
  intro i
  by_cases hi : i < 32
  · exact h i hi
  · have hle : 2 ^ 32 ≤ 2 ^ i := Nat.pow_le_pow_right (by decide) (by omega)
    rw [Nat.testBit_lt_two_pow (lt_of_lt_of_le ha hle),
      Nat.testBit_lt_two_pow (lt_of_lt_of_le hb hle)]

/-- The 32-bit complement is a 32-bit word. -/
theorem not32_lt (x : Nat) : not32 x < 2 ^ 32 :=
  Nat.xor_lt_two_pow (by decide) (Nat.mod_lt _ (by decide))

/-- A `DWORD` store yields a 32-bit word. -/
theorem toDWORD_lt (x : Nat) : toDWORD x < 2 ^ 32 :=
  Nat.mod_lt _ (by decide)

/-- A `WORD` store yields a 16-bit word. -/
theorem toWORD_lt (x : Nat) : toWORD x < 2 ^ 16 :=
  Nat.mod_lt _ (by decide)

/-- Masking with a 32-bit word yields a 32-bit word. -/
theorem and_lt32 (x k : Nat) (hk : k < 2 ^ 32) : x &&& k < 2 ^ 32 :=
  Nat.and_lt_two_pow x hk

/-! ## The vector-unit register in the cross-thread path -/

/-- The MXCSR value of the rewritten snapshot, for the three severities. -/
theorem mutateContext_MxCsr (eFPESeverity : Nat) (ctx : CONTEXT)
    (hs : eFPESeverity = eFPE_None ∨ eFPESeverity = eFPE_Basic ∨ eFPESeverity = eFPE_All) :
    (mutateContext eFPESeverity ctx).MxCsr =
      (ctx.MxCsr &&& not32 (0x8000 ||| 0x1F80 ||| 0x003F)) ||| _MM_FLUSH_ZERO_ON |||
        specMxCsrMask eFPESeverity := by
  have hK : ∀ k, k < 2 ^ 32 →
      ((ctx.MxCsr &&& not32 (0x8000 ||| 0x1F80 ||| 0x003F)) ||| _MM_FLUSH_ZERO_ON ||| k) <
        2 ^ 32 := by
    intro k hk
    exact Nat.or_lt_two_pow (Nat.or_lt_two_pow (and_lt32 _ _ (not32_lt _)) (by decide)) hk
  rcases hs with rfl | rfl | rfl
  · apply eq_of_low32_bits _ _ (toDWORD_lt _) (hK _ (by decide))
    intro i hi
    simp only [mutateContext, specMxCsrMask, eFPE_None, eFPE_Basic, eFPE_All, toDWORD, not32,
      _MM_FLUSH_ZERO_MASK, _MM_FLUSH_ZERO_ON, _MM_MASK_MASK, _MM_EXCEPT_INEXACT,
      _MM_EXCEPT_UNDERFLOW, _MM_EXCEPT_OVERFLOW, _MM_EXCEPT_DIV_ZERO, _MM_EXCEPT_INVALID,
      _MM_EXCEPT_DENORM, Nat.testBit_mod_two_pow, Nat.testBit_and, Nat.testBit_or,
      Nat.testBit_xor, if_true, OfNat.zero_ne_ofNat, if_false]
    generalize ctx.MxCsr.testBit i = b
    interval_cases i <;> cases b <;> decide
  · apply eq_of_low32_bits _ _ (toDWORD_lt _) (hK _ (by decide))
    intro i hi
    simp only [mutateContext, specMxCsrMask, eFPE_None, eFPE_Basic, eFPE_All, toDWORD, not32,
      _MM_FLUSH_ZERO_MASK, _MM_FLUSH_ZERO_ON, _MM_MASK_MASK, _MM_EXCEPT_INEXACT,
      _MM_EXCEPT_UNDERFLOW, _MM_EXCEPT_OVERFLOW, _MM_EXCEPT_DIV_ZERO, _MM_EXCEPT_INVALID,
      _MM_EXCEPT_DENORM, _MM_MASK_DENORM, _MM_MASK_INEXACT, _MM_MASK_UNDERFLOW,
      _MM_MASK_OVERFLOW, Nat.testBit_mod_two_pow, Nat.testBit_and, Nat.testBit_or,
      Nat.testBit_xor, if_true, one_ne_zero, OfNat.one_ne_ofNat, if_false]
    generalize ctx.MxCsr.testBit i = b
    interval_cases i <;> cases b <;> decide
  · apply eq_of_low32_bits _ _ (toDWORD_lt _) (hK _ (by decide))
    intro i hi
    simp only [mutateContext, specMxCsrMask, eFPE_None, eFPE_Basic, eFPE_All, toDWORD, not32,
      _MM_FLUSH_ZERO_MASK, _MM_FLUSH_ZERO_ON, _MM_MASK_MASK, _MM_EXCEPT_INEXACT,
      _MM_EXCEPT_UNDERFLOW, _MM_EXCEPT_OVERFLOW, _MM_EXCEPT_DIV_ZERO, _MM_EXCEPT_INVALID,
      _MM_EXCEPT_DENORM, _MM_MASK_DENORM, _MM_MASK_INEXACT, _MM_MASK_UNDERFLOW,
      _MM_MASK_OVERFLOW, Nat.testBit_mod_two_pow, Nat.testBit_and, Nat.testBit_or,
      Nat.testBit_xor, if_true, OfNat.ofNat_ne_zero, OfNat.ofNat_ne_one, if_false]
    generalize ctx.MxCsr.testBit i = b
    interval_cases i <;> cases b <;> decide

/-- Fields of a word of the form `(m` with flush-to-zero, mask and flag bits
cleared`) | 0x8000 | k`, for the three mask sets. -/
theorem mxcsr_fields (m k : Nat) (hk : k = 0x1F80 ∨ k = 0x1D00 ∨ k = 0x1100) :
    ((m &&& not32 (0x8000 ||| 0x1F80 ||| 0x003F)) ||| 0x8000 ||| k) &&& 0x8000 = 0x8000 ∧
    ((m &&& not32 (0x8000 ||| 0x1F80 ||| 0x003F)) ||| 0x8000 ||| k) &&& 0x003F = 0 ∧
    ((m &&& not32 (0x8000 ||| 0x1F80 ||| 0x003F)) ||| 0x8000 ||| k) &&& 0x1F80 = k ∧
    ((m &&& not32 (0x8000 ||| 0x1F80 ||| 0x003F)) ||| 0x8000 ||| k) &&&
        not32 (0x8000 ||| 0x1F80 ||| 0x003F) =
      m &&& not32 (0x8000 ||| 0x1F80 ||| 0x003F) := by
  rcases hk with rfl | rfl | rfl
  all_goals
    refine ⟨?_, ?_, ?_, ?_⟩
    all_goals
      apply eq_of_low32_bits
      · exact and_lt32 _ _ (by decide)
      · first
          | exact and_lt32 _ _ (not32_lt _)
          | decide
      · intro i hi
        simp only [not32, Nat.testBit_mod_two_pow, Nat.testBit_and, Nat.testBit_or,
          Nat.testBit_xor]
        generalize m.testBit i = b
        interval_cases i <;> cases b <;> decide

/-- C4: in the cross-thread path, when the snapshot is read, the context
handed to `SetThreadContext` has, for every severity among None, Basic and All
and every initial MXCSR `m`, the MXCSR value `(m` with bits
`0x8000 | 0x1F80 | 0x003F` cleared`) | _MM_FLUSH_ZERO_ON | M(s)`: flush-to-zero
is on, the six pending flags are clear, the mask field is `M(s)`, and every
other bit keeps its initial value. -/
theorem EnableFloatExceptionsFor_writes_MxCsr (fpreset : FpuState → FpuState)
    (os : OsOutcome) (nThreadId eFPESeverity : Nat) (self : FpuState) (snapshot : CONTEXT)
    (h0 : nThreadId ≠ 0) (hcur : nThreadId ≠ os.currentThreadId) (hT : os.hThread ≠ 0)
    (hg : os.getThreadContext = some snapshot)
    (hs : eFPESeverity = eFPE_None ∨ eFPESeverity = eFPE_Basic ∨ eFPESeverity = eFPE_All) :
    OsCall.SetThreadContext os.hThread (mutateContext eFPESeverity snapshot) ∈
      (EnableFloatExceptionsFor fpreset os nThreadId eFPESeverity self).trace ∧
    (∀ h ctx, OsCall.SetThreadContext h ctx ∈
        (EnableFloatExceptionsFor fpreset os nThreadId eFPESeverity self).trace →
      ctx = mutateContext eFPESeverity snapshot) ∧
    (mutateContext eFPESeverity snapshot).MxCsr =
      (snapshot.MxCsr &&& not32 (0x8000 ||| 0x1F80 ||| 0x003F)) ||| _MM_FLUSH_ZERO_ON |||
        specMxCsrMask eFPESeverity ∧
    (mutateContext eFPESeverity snapshot).MxCsr &&& _MM_FLUSH_ZERO_MASK = _MM_FLUSH_ZERO_ON ∧
    (mutateContext eFPESeverity snapshot).MxCsr &&& 0x003F = 0 ∧
    (mutateContext eFPESeverity snapshot).MxCsr &&& _MM_MASK_MASK =
      specMxCsrMask eFPESeverity ∧
    (mutateContext eFPESeverity snapshot).MxCsr &&& not32 (0x8000 ||| 0x1F80 ||| 0x003F) =
      snapshot.MxCsr &&& not32 (0x8000 ||| 0x1F80 ||| 0x003F) := by
  have hk : specMxCsrMask eFPESeverity = 0x1F80 ∨ specMxCsrMask eFPESeverity = 0x1D00 ∨
      specMxCsrMask eFPESeverity = 0x1100 := by
    rcases hs with rfl | rfl | rfl
    · exact Or.inl (by decide)
    · exact Or.inr (Or.inl (by decide))
    · exact Or.inr (Or.inr (by decide))
  have hf := mxcsr_fields snapshot.MxCsr _ hk
  have hm := mutateContext_MxCsr eFPESeverity snapshot hs
  have hon : _MM_FLUSH_ZERO_ON = 0x8000 := rfl
  have hmask : _MM_FLUSH_ZERO_MASK = 0x8000 := rfl
  have hmm : _MM_MASK_MASK = 0x1F80 := rfl
  refine ⟨?_, ?_, hm, ?_, ?_, ?_, ?_⟩
  · cases hset : os.setThreadContext <;>
      simp [EnableFloatExceptionsFor, h0, hcur, hT, hg, hset]
  · intro h ctx hmem
    have hsev : ∀ c ∈ severityRangeCheck eFPESeverity,
        c ≠ OsCall.SetThreadContext h ctx := by
      intro c hc
      by_cases hr : eFPESeverity ≥ eFPE_LastEntry
      · simp [severityRangeCheck, hr] at hc
        subst hc
        simp
      · simp [severityRangeCheck, hr] at hc
    cases hset : os.setThreadContext <;>
      simp [EnableFloatExceptionsFor, h0, hcur, hT, hg, hset] at hmem <;>
      rcases hmem with hmem | hmem
    · exact absurd rfl (hsev _ hmem)
    · exact hmem.2
    · exact absurd rfl (hsev _ hmem)
    · exact hmem.2
  · rw [hm, hon, hmask]
    exact hf.1
  · rw [hm, hon]
    exact hf.2.1
  · rw [hm, hon, hmm]
    exact hf.2.2.1
  · rw [hm, hon]
    exact hf.2.2.2

/-- C4, evaluated on a snapshot whose MXCSR is 0x7FA5 (rounding control 0x6000,
all exceptions masked, three pending flags) under Basic: 0xFD00 is written. -/
theorem EnableFloatExceptionsFor_writes_MxCsr_witness :
    (2 : Nat) ≠ 0 ∧
    (2 : Nat) ≠ (⟨1, 0x64, some ⟨CONTEXT_ALL, 0x7FA5, 0x027F, 0⟩, true⟩ :
      OsOutcome).currentThreadId ∧
    (⟨1, 0x64, some ⟨CONTEXT_ALL, 0x7FA5, 0x027F, 0⟩, true⟩ : OsOutcome).hThread ≠ 0 ∧
    OsCall.SetThreadContext 0x64 ⟨CONTEXT_ALL, 0xFD00, 0x0267, 0⟩ ∈
      (EnableFloatExceptionsFor fpresetDefault
        ⟨1, 0x64, some ⟨CONTEXT_ALL, 0x7FA5, 0x027F, 0⟩, true⟩ 2 eFPE_Basic
        ⟨0x0008001F, 0, 0x1F80⟩).trace :=
  ⟨by decide, by decide, by decide,
   (EnableFloatExceptionsFor_writes_MxCsr fpresetDefault
      ⟨1, 0x64, some ⟨CONTEXT_ALL, 0x7FA5, 0x027F, 0⟩, true⟩ 2 eFPE_Basic
      ⟨0x0008001F, 0, 0x1F80⟩ ⟨CONTEXT_ALL, 0x7FA5, 0x027F, 0⟩
      (by decide) (by decide) (by decide) rfl (Or.inr (Or.inl rfl))).1⟩

/-! ## The self-apply path -/

/-- The two mask fields left by the self-apply path, whatever the initial
state and whatever `_fpreset` does. -/
theorem EnableFloatExceptions_mask_fields (fpreset : FpuState → FpuState)
    (eFPESeverity : Nat) (s : FpuState)
    (hs : eFPESeverity = eFPE_None ∨ eFPESeverity = eFPE_Basic ∨ eFPESeverity = eFPE_All) :
    (GetFloatingPointExceptionMask (EnableFloatExceptions fpreset eFPESeverity s)).1 &&&
        _MCW_EM = specControlMask eFPESeverity ∧
    (EnableFloatExceptions fpreset eFPESeverity s).mxcsr &&& _MM_MASK_MASK =
      specMxCsrMask eFPESeverity := by
  rcases hs with rfl | rfl | rfl
  · constructor
    · apply eq_of_low32_bits _ _ (and_lt32 _ _ (by decide)) (by decide)
      intro i hi
      simp only [EnableFloatExceptions, GetFloatingPointExceptionMask, _controlfp_s, _controlfp,
        _clearfp, _mm_setcsr, _mm_getcsr, specControlMask, eFPE_None, if_true,
        Nat.testBit_and, Nat.testBit_or, Nat.testBit_xor, not32, Nat.testBit_mod_two_pow]
      generalize s.control.testBit i = b
      interval_cases i <;> cases b <;> decide
    · apply eq_of_low32_bits _ _ (and_lt32 _ _ (by decide)) (by decide)
      intro i hi
      simp only [EnableFloatExceptions, _controlfp, _mm_setcsr, _mm_getcsr, specMxCsrMask,
        eFPE_None, if_true, toDWORD,
        Nat.testBit_and, Nat.testBit_or, Nat.testBit_xor, not32, Nat.testBit_mod_two_pow]
      generalize s.mxcsr.testBit i = b
      interval_cases i <;> cases b <;> decide
  · have he : EnableFloatExceptions fpreset eFPE_Basic s =
        _mm_setcsr ((_mm_getcsr (_controlfp
            (_EM_INEXACT ||| _EM_DENORMAL ||| _EM_UNDERFLOW ||| _EM_OVERFLOW) _MCW_EM
            (fpreset (_mm_setcsr (_mm_getcsr (_controlfp _DN_FLUSH _MCW_DN s) |||
              _MM_FLUSH_ZERO_ON) (_controlfp _DN_FLUSH _MCW_DN s)))) &&& not32 _MM_MASK_MASK) |||
          (_MM_MASK_DENORM ||| _MM_MASK_INEXACT ||| _MM_MASK_UNDERFLOW ||| _MM_MASK_OVERFLOW))
          (_controlfp (_EM_INEXACT ||| _EM_DENORMAL ||| _EM_UNDERFLOW ||| _EM_OVERFLOW) _MCW_EM
            (fpreset (_mm_setcsr (_mm_getcsr (_controlfp _DN_FLUSH _MCW_DN s) |||
              _MM_FLUSH_ZERO_ON) (_controlfp _DN_FLUSH _MCW_DN s)))) := rfl
    rw [he]
    generalize fpreset _ = r
    constructor
    · apply eq_of_low32_bits _ _ (and_lt32 _ _ (by decide)) (by decide)
      intro i hi
      simp only [GetFloatingPointExceptionMask, _controlfp_s, _controlfp,
        _clearfp, _mm_setcsr, _mm_getcsr, specControlMask,
        Nat.testBit_and, Nat.testBit_or, Nat.testBit_xor, not32, Nat.testBit_mod_two_pow]
      generalize r.control.testBit i = b
      interval_cases i <;> cases b <;> decide
    · apply eq_of_low32_bits _ _ (and_lt32 _ _ (by decide)) (by decide)
      intro i hi
      simp only [_controlfp, _mm_setcsr, _mm_getcsr, specMxCsrMask, toDWORD,
        Nat.testBit_and, Nat.testBit_or, Nat.testBit_xor, not32, Nat.testBit_mod_two_pow]
      generalize r.mxcsr.testBit i = b
      interval_cases i <;> cases b <;> decide
  · have he : EnableFloatExceptions fpreset eFPE_All s =
        _mm_setcsr ((_mm_getcsr (_controlfp (_EM_INEXACT ||| _EM_DENORMAL) _MCW_EM
            (fpreset (_mm_setcsr (_mm_getcsr (_controlfp _DN_FLUSH _MCW_DN s) |||
              _MM_FLUSH_ZERO_ON) (_controlfp _DN_FLUSH _MCW_DN s)))) &&& not32 _MM_MASK_MASK) |||
          (_MM_MASK_INEXACT ||| _MM_MASK_DENORM))
          (_controlfp (_EM_INEXACT ||| _EM_DENORMAL) _MCW_EM
            (fpreset (_mm_setcsr (_mm_getcsr (_controlfp _DN_FLUSH _MCW_DN s) |||
              _MM_FLUSH_ZERO_ON) (_controlfp _DN_FLUSH _MCW_DN s)))) := rfl
    rw [he]
    generalize fpreset _ = r
    constructor
    · apply eq_of_low32_bits _ _ (and_lt32 _ _ (by decide)) (by decide)
      intro i hi
      simp only [GetFloatingPointExceptionMask, _controlfp_s, _controlfp,
        _clearfp, _mm_setcsr, _mm_getcsr, specControlMask,
        Nat.testBit_and, Nat.testBit_or, Nat.testBit_xor, not32, Nat.testBit_mod_two_pow]
      generalize r.control.testBit i = b
      interval_cases i <;> cases b <;> decide
    · apply eq_of_low32_bits _ _ (and_lt32 _ _ (by decide)) (by decide)
      intro i hi
      simp only [_controlfp, _mm_setcsr, _mm_getcsr, specMxCsrMask, toDWORD,
        Nat.testBit_and, Nat.testBit_or, Nat.testBit_xor, not32, Nat.testBit_mod_two_pow]
      generalize r.mxcsr.testBit i = b
      interval_cases i <;> cases b <;> decide

/-- C5: for every initial state, every behaviour of `_fpreset` and every
severity among None, Basic and All, after `EnableFloatExceptions(s)` the value
returned by `GetFloatingPointExceptionMask()` has under `_MCW_EM` exactly the
mask set of the severity, MXCSR has under `_MM_MASK_MASK` the corresponding
set (also after the read), and a second application of the same severity
leaves the same two fields. -/
theorem EnableFloatExceptions_sets_masks (fpreset : FpuState → FpuState)
    (eFPESeverity : Nat) (s0 : FpuState)
    (hs : eFPESeverity = eFPE_None ∨ eFPESeverity = eFPE_Basic ∨ eFPESeverity = eFPE_All) :
    (GetFloatingPointExceptionMask (EnableFloatExceptions fpreset eFPESeverity s0)).1 &&&
        _MCW_EM = specControlMask eFPESeverity ∧
    (EnableFloatExceptions fpreset eFPESeverity s0).mxcsr &&& _MM_MASK_MASK =
      specMxCsrMask eFPESeverity ∧
    (GetFloatingPointExceptionMask (EnableFloatExceptions fpreset eFPESeverity s0)).2.mxcsr =
      (EnableFloatExceptions fpreset eFPESeverity s0).mxcsr ∧
    (GetFloatingPointExceptionMask (EnableFloatExceptions fpreset eFPESeverity
        (EnableFloatExceptions fpreset eFPESeverity s0))).1 &&& _MCW_EM =
      (GetFloatingPointExceptionMask (EnableFloatExceptions fpreset eFPESeverity s0)).1 &&&
        _MCW_EM ∧
    (EnableFloatExceptions fpreset eFPESeverity
        (EnableFloatExceptions fpreset eFPESeverity s0)).mxcsr &&& _MM_MASK_MASK =
      (EnableFloatExceptions fpreset eFPESeverity s0).mxcsr &&& _MM_MASK_MASK := by
  have h1 := EnableFloatExceptions_mask_fields fpreset eFPESeverity s0 hs
  have h2 := EnableFloatExceptions_mask_fields fpreset eFPESeverity
    (EnableFloatExceptions fpreset eFPESeverity s0) hs
  exact ⟨h1.1, h1.2, rfl, h2.1.trans h1.1.symm, h2.2.trans h1.2.symm⟩

/-- C5, evaluated under Basic from a state with every exception unmasked:
the control word reads back the mask 0x80007 and MXCSR the mask 0x1D00. -/
theorem EnableFloatExceptions_sets_masks_witness :
    (eFPE_Basic = eFPE_None ∨ eFPE_Basic = eFPE_Basic ∨ eFPE_Basic = eFPE_All) ∧
    (GetFloatingPointExceptionMask
        (EnableFloatExceptions fpresetDefault eFPE_Basic ⟨0x00000300, 0x1F, 0x003F⟩)).1 &&&
      _MCW_EM = 0x00080007 ∧
    (EnableFloatExceptions fpresetDefault eFPE_Basic ⟨0x00000300, 0x1F, 0x003F⟩).mxcsr &&&
      _MM_MASK_MASK = 0x1D00 :=
  ⟨Or.inr (Or.inl rfl),
   (EnableFloatExceptions_sets_masks fpresetDefault eFPE_Basic ⟨0x00000300, 0x1F, 0x003F⟩
      (Or.inr (Or.inl rfl))).1,
   (EnableFloatExceptions_sets_masks fpresetDefault eFPE_Basic ⟨0x00000300, 0x1F, 0x003F⟩
      (Or.inr (Or.inl rfl))).2.1⟩

/-! ## Mask introspection -/

/-- C6: for every control value `c` below `2 ^ 32` and every `nMask`, after
`SetFloatingPointExceptionMask(nMask)` the control value is
`(c & ~A) | (nMask & A)` with `A = _MCW_DN | _MCW_EM | _MCW_RC`; every bit
outside `A` keeps its value, and `GetFloatingPointExceptionMask()` then
returns a value whose bits under `A` are `nMask & A`. The function is total:
no mask is rejected. -/
theorem SetFloatingPointExceptionMask_frame (nMask : Nat) (s : FpuState)
    (hc : s.control < 2 ^ 32) :
    (SetFloatingPointExceptionMask nMask s).control =
      (s.control &&& not32 (_MCW_DN ||| _MCW_EM ||| _MCW_RC)) |||
        (nMask &&& (_MCW_DN ||| _MCW_EM ||| _MCW_RC)) ∧
    (∀ i, (_MCW_DN ||| _MCW_EM ||| _MCW_RC).testBit i = false →
      (SetFloatingPointExceptionMask nMask s).control.testBit i = s.control.testBit i) ∧
    (GetFloatingPointExceptionMask (SetFloatingPointExceptionMask nMask s)).1 &&&
        (_MCW_DN ||| _MCW_EM ||| _MCW_RC) =
      nMask &&& (_MCW_DN ||| _MCW_EM ||| _MCW_RC) ∧
    (GetFloatingPointExceptionMask (SetFloatingPointExceptionMask nMask s)).1 &&&
        not32 (_MCW_DN ||| _MCW_EM ||| _MCW_RC) =
      s.control &&& not32 (_MCW_DN ||| _MCW_EM ||| _MCW_RC) := by
  have hlt : (SetFloatingPointExceptionMask nMask s).control < 2 ^ 32 :=
    Nat.or_lt_two_pow (and_lt32 _ _ (not32_lt _)) (and_lt32 _ _ (by decide))
  refine ⟨rfl, ?_, ?_, ?_⟩
  · intro i hA
    by_cases hi : i < 32
    · simp only [SetFloatingPointExceptionMask, _controlfp_s, _controlfp, _clearfp,
        Nat.testBit_and, Nat.testBit_or, Nat.testBit_xor, not32, Nat.testBit_mod_two_pow]
      generalize s.control.testBit i = b
      generalize nMask.testBit i = b'
      interval_cases i <;>
        first
          | exact absurd hA (by decide)
          | (cases b <;> cases b' <;> decide)
    · have hle : 2 ^ 32 ≤ 2 ^ i := Nat.pow_le_pow_right (by decide) (by omega)
      rw [Nat.testBit_lt_two_pow (lt_of_lt_of_le hlt hle),
        Nat.testBit_lt_two_pow (lt_of_lt_of_le hc hle)]
  · apply eq_of_low32_bits _ _ (and_lt32 _ _ (by decide)) (and_lt32 _ _ (by decide))
    intro i hi
    simp only [GetFloatingPointExceptionMask, SetFloatingPointExceptionMask, _controlfp_s,
      _controlfp, _clearfp, Nat.testBit_and, Nat.testBit_or, Nat.testBit_xor, not32,
      Nat.testBit_mod_two_pow]
    generalize s.control.testBit i = b
    generalize nMask.testBit i = b'
    interval_cases i <;> cases b <;> cases b' <;> decide
  · apply eq_of_low32_bits _ _ (and_lt32 _ _ (not32_lt _)) (and_lt32 _ _ (not32_lt _))
    intro i hi
    simp only [GetFloatingPointExceptionMask, SetFloatingPointExceptionMask, _controlfp_s,
      _controlfp, _clearfp, Nat.testBit_and, Nat.testBit_or, Nat.testBit_xor, not32,
      Nat.testBit_mod_two_pow]
    generalize s.control.testBit i = b
    generalize nMask.testBit i = b'
    interval_cases i <;> cases b <;> cases b' <;> decide

/-- C6, evaluated with every bit of `nMask` set on the control value
0x00010000 (precision control, outside the allowed groups): the bit 0x10000
stays, the allowed groups become 0x0308031F. -/
theorem SetFloatingPointExceptionMask_frame_witness :
    (⟨0x00010000, 0, 0x1F80⟩ : FpuState).control < 2 ^ 32 ∧
    (SetFloatingPointExceptionMask 0xFFFFFFFF ⟨0x00010000, 0, 0x1F80⟩).control = 0x0309031F ∧
    (SetFloatingPointExceptionMask 0xFFFFFFFF ⟨0x00010000, 0, 0x1F80⟩).control.testBit 16 =
      (⟨0x00010000, 0, 0x1F80⟩ : FpuState).control.testBit 16 :=
  ⟨by decide, by decide,
   (SetFloatingPointExceptionMask_frame 0xFFFFFFFF ⟨0x00010000, 0, 0x1F80⟩ (by decide)).2.1 16
     (by decide)⟩

/-! ## The legacy control word in the cross-thread path, for every input -/

/-- Whatever the severity and the snapshot, the control word written back is
a 16-bit value, so it has no bit under `_MCW_DN` and never the bit
`_EM_DENORMAL`. -/
theorem mutateContext_ControlWord_high_bits (eFPESeverity : Nat) (ctx : CONTEXT) :
    (mutateContext eFPESeverity ctx).ControlWord < 2 ^ 16 ∧
    (mutateContext eFPESeverity ctx).ControlWord &&& _MCW_DN = 0 ∧
    (mutateContext eFPESeverity ctx).ControlWord &&& _EM_DENORMAL = 0 := by
  have hlt : (mutateContext eFPESeverity ctx).ControlWord < 2 ^ 16 := by
    simp only [mutateContext]
    split_ifs <;> exact toWORD_lt _
  have hbit : ∀ i, 16 ≤ i → (mutateContext eFPESeverity ctx).ControlWord.testBit i = false := by
    intro i hi
    exact Nat.testBit_lt_two_pow (lt_of_lt_of_le hlt (Nat.pow_le_pow_right (by decide) hi))
  refine ⟨hlt, ?_, ?_⟩
  · apply Nat.eq_of_testBit_eq
    intro i
    rw [Nat.testBit_and, Nat.zero_testBit]
    by_cases hi : 16 ≤ i
    · rw [hbit i hi, Bool.false_and]
    · have hi16 : i < 16 := by omega
      generalize (mutateContext eFPESeverity ctx).ControlWord.testBit i = b
      interval_cases i <;> cases b <;> decide
  · apply Nat.eq_of_testBit_eq
    intro i
    rw [Nat.testBit_and, Nat.zero_testBit]
    by_cases hi : 16 ≤ i
    · rw [hbit i hi, Bool.false_and]
    · have hi16 : i < 16 := by omega
      generalize (mutateContext eFPESeverity ctx).ControlWord.testBit i = b
      interval_cases i <;> cases b <;> decide

/-! ## Cross-thread path against self-apply path on MXCSR -/

/-- C10 (fails as stated): under None and from the MXCSR value 0x1F81, which
has the invalid-operation flag pending, the cross-thread rewrite clears the
flag and the self-apply path keeps it, so the two results differ on the six
pending flags. -/
theorem cross_and_self_differ_on_pending_flags :
    (mutateContext eFPE_None ⟨CONTEXT_ALL, 0x1F81, 0x027F, 0⟩).MxCsr = 0x9F80 ∧
    (EnableFloatExceptions fpresetDefault eFPE_None ⟨0x0008001F, 0, 0x1F81⟩).mxcsr = 0x9F81 ∧
    (mutateContext eFPE_None ⟨CONTEXT_ALL, 0x1F81, 0x027F, 0⟩).MxCsr &&& 0x003F ≠
      (EnableFloatExceptions fpresetDefault eFPE_None ⟨0x0008001F, 0, 0x1F81⟩).mxcsr &&&
        0x003F := by
  refine ⟨by decide, by decide, by decide⟩

/-- C10 as amended: for every severity among None, Basic and All and every
initial MXCSR value, shared by the snapshot and the calling thread, the two
paths leave the same exception-mask field (0x1F80). Under Basic and All they
also agree on the six pending flags (0x003F), which both clear, `_fpreset()`
clearing the pending flags as line 270 says. Under None they agree on the
flush-to-zero bit (0x8000), which both set, while the cross-thread path clears
the six flags and the self-apply path keeps those of the initial value. -/
theorem cross_and_self_agree_on_mask_field (fpreset : FpuState → FpuState)
    (eFPESeverity : Nat) (ctx : CONTEXT) (s : FpuState) (hm : s.mxcsr = ctx.MxCsr)
    (hs : eFPESeverity = eFPE_None ∨ eFPESeverity = eFPE_Basic ∨ eFPESeverity = eFPE_All) :
    (mutateContext eFPESeverity ctx).MxCsr &&& _MM_MASK_MASK =
      (EnableFloatExceptions fpreset eFPESeverity s).mxcsr &&& _MM_MASK_MASK ∧
    (eFPESeverity ≠ eFPE_None → (∀ t, (fpreset t).mxcsr &&& 0x003F = 0) →
      (mutateContext eFPESeverity ctx).MxCsr &&& 0x003F =
        (EnableFloatExceptions fpreset eFPESeverity s).mxcsr &&& 0x003F ∧
      (mutateContext eFPESeverity ctx).MxCsr &&& 0x003F = 0) ∧
    (eFPESeverity = eFPE_None →
      (mutateContext eFPESeverity ctx).MxCsr &&& 0x8000 =
        (EnableFloatExceptions fpreset eFPESeverity s).mxcsr &&& 0x8000 ∧
      (mutateContext eFPESeverity ctx).MxCsr &&& 0x8000 = 0x8000 ∧
      (mutateContext eFPESeverity ctx).MxCsr &&& 0x003F = 0 ∧
      (EnableFloatExceptions fpreset eFPESeverity s).mxcsr &&& 0x003F =
        ctx.MxCsr &&& 0x003F) := by
  have hself := (EnableFloatExceptions_mask_fields fpreset eFPESeverity s hs).2
  have hk : specMxCsrMask eFPESeverity = 0x1F80 ∨ specMxCsrMask eFPESeverity = 0x1D00 ∨
      specMxCsrMask eFPESeverity = 0x1100 := by
    rcases hs with rfl | rfl | rfl
    · exact Or.inl (by decide)
    · exact Or.inr (Or.inl (by decide))
    · exact Or.inr (Or.inr (by decide))
  have hf := mxcsr_fields ctx.MxCsr _ hk
  have hcross := mutateContext_MxCsr eFPESeverity ctx hs
  have hon : _MM_FLUSH_ZERO_ON = 0x8000 := rfl
  have hmm : _MM_MASK_MASK = 0x1F80 := rfl
  have hcrossFlags : (mutateContext eFPESeverity ctx).MxCsr &&& 0x003F = 0 := by
    rw [hcross, hon]
    exact hf.2.1
  have hcrossFtz : (mutateContext eFPESeverity ctx).MxCsr &&& 0x8000 = 0x8000 := by
    rw [hcross, hon]
    exact hf.1
  refine ⟨?_, ?_, ?_⟩
  · rw [hself, hcross, hon, hmm]
    exact hf.2.2.1
  · intro hne hclear
    refine ⟨?_, hcrossFlags⟩
    rw [hcrossFlags]
    rcases hs with h | rfl | rfl
    · exact absurd h hne
    · have he : (EnableFloatExceptions fpreset eFPE_Basic s).mxcsr =
          toDWORD (((fpreset (stateBeforeFpreset s)).mxcsr &&& not32 _MM_MASK_MASK) |||
            (_MM_MASK_DENORM ||| _MM_MASK_INEXACT ||| _MM_MASK_UNDERFLOW |||
              _MM_MASK_OVERFLOW)) := rfl
      rw [he, ← hclear (stateBeforeFpreset s)]
      generalize fpreset _ = r
      apply eq_of_low32_bits _ _ (and_lt32 _ _ (by decide)) (and_lt32 _ _ (by decide))
      intro i hi
      simp only [toDWORD, Nat.testBit_and, Nat.testBit_or, Nat.testBit_xor, not32,
        Nat.testBit_mod_two_pow]
      generalize r.mxcsr.testBit i = b
      interval_cases i <;> cases b <;> decide
    · have he : (EnableFloatExceptions fpreset eFPE_All s).mxcsr =
          toDWORD (((fpreset (stateBeforeFpreset s)).mxcsr &&& not32 _MM_MASK_MASK) |||
            (_MM_MASK_INEXACT ||| _MM_MASK_DENORM)) := rfl
      rw [he, ← hclear (stateBeforeFpreset s)]
      generalize fpreset _ = r
      apply eq_of_low32_bits _ _ (and_lt32 _ _ (by decide)) (and_lt32 _ _ (by decide))
      intro i hi
      simp only [toDWORD, Nat.testBit_and, Nat.testBit_or, Nat.testBit_xor, not32,
        Nat.testBit_mod_two_pow]
      generalize r.mxcsr.testBit i = b
      interval_cases i <;> cases b <;> decide
  · intro hnone
    subst hnone
    have hselfFtz : (EnableFloatExceptions fpreset eFPE_None s).mxcsr &&& 0x8000 = 0x8000 := by
      apply eq_of_low32_bits _ _ (and_lt32 _ _ (by decide)) (by decide)
      intro i hi
      simp only [EnableFloatExceptions, _controlfp, _mm_setcsr, _mm_getcsr, eFPE_None, if_true,
        toDWORD, Nat.testBit_and, Nat.testBit_or, Nat.testBit_xor, not32,
        Nat.testBit_mod_two_pow]
      generalize s.mxcsr.testBit i = b
      interval_cases i <;> cases b <;> decide
    refine ⟨by rw [hcrossFtz, hselfFtz], hcrossFtz, hcrossFlags, ?_⟩
    rw [← hm]
    apply eq_of_low32_bits _ _ (and_lt32 _ _ (by decide)) (and_lt32 _ _ (by decide))
    intro i hi
    simp only [EnableFloatExceptions, _controlfp, _mm_setcsr, _mm_getcsr, eFPE_None, if_true,
      toDWORD, Nat.testBit_and, Nat.testBit_or, Nat.testBit_xor, not32,
      Nat.testBit_mod_two_pow]
    generalize s.mxcsr.testBit i = b
    interval_cases i <;> cases b <;> decide

/-- C10 as amended, evaluated under Basic from the MXCSR value 0x1FA5 (three
flags pending): both paths leave the mask field 0x1D00 and clear the six
flags. -/
theorem cross_and_self_agree_on_mask_field_witness :
    (⟨0x0008001F, 0, 0x1FA5⟩ : FpuState).mxcsr =
      (⟨CONTEXT_ALL, 0x1FA5, 0x027F, 0⟩ : CONTEXT).MxCsr ∧
    (eFPE_Basic = eFPE_None ∨ eFPE_Basic = eFPE_Basic ∨ eFPE_Basic = eFPE_All) ∧
    eFPE_Basic ≠ eFPE_None ∧
    (∀ t, (fpresetDefault t).mxcsr &&& 0x003F = 0) ∧
    (mutateContext eFPE_Basic ⟨CONTEXT_ALL, 0x1FA5, 0x027F, 0⟩).MxCsr &&& _MM_MASK_MASK =
      (EnableFloatExceptions fpresetDefault eFPE_Basic ⟨0x0008001F, 0, 0x1FA5⟩).mxcsr &&&
        _MM_MASK_MASK ∧
    (mutateContext eFPE_Basic ⟨CONTEXT_ALL, 0x1FA5, 0x027F, 0⟩).MxCsr &&& 0x003F =
      (EnableFloatExceptions fpresetDefault eFPE_Basic ⟨0x0008001F, 0, 0x1FA5⟩).mxcsr &&&
        0x003F :=
  ⟨rfl, Or.inr (Or.inl rfl), by decide, fun _ => (by decide : (0x1F80 : Nat) &&& 0x003F = 0),
   (cross_and_self_agree_on_mask_field fpresetDefault eFPE_Basic
      ⟨CONTEXT_ALL, 0x1FA5, 0x027F, 0⟩ ⟨0x0008001F, 0, 0x1FA5⟩ rfl (Or.inr (Or.inl rfl))).1,
   ((cross_and_self_agree_on_mask_field fpresetDefault eFPE_Basic
      ⟨CONTEXT_ALL, 0x1FA5, 0x027F, 0⟩ ⟨0x0008001F, 0, 0x1FA5⟩ rfl (Or.inr (Or.inl rfl))).2.1
      (by decide) (fun _ => (by decide : (0x1F80 : Nat) &&& 0x003F = 0))).1⟩

end CryThreadUtil
